import Mathlib

/-!
Verification of the betepok506/ocr repository.

Shallow embedding of the algorithmic core of the repository:

* `extract_data` / the Alphabet Codec   (src/src/data/data.py, lines 106-145)
* `collate_fn` / the Batch Assembler    (src/src/data/data.py, lines 148-162)
* `create_loaders`                      (src/src/data/data.py, lines 55-103)
* the greedy CTC sequence decoder       (spec section 4.2; the module
  src/utils.py holding `decode_batch_outputs`, `encoding` and `split_text`
  is not part of the provided sources, so those three are modelled from
  the spec)
* `OCR._evaluations_cer`                (src/src/model.py, lines 354-371,
  a thin wrapper around torchmetrics `CharErrorRate`)
* the checkpoint step of `OCR.train`    (src/src/model.py, lines 102-145)
* `OCR.evaluations`                     (src/src/model.py, lines 265-312)
* `OCR.save` / `OCR.load`               (src/src/model.py, lines 376-419)
* the loader construction of `train_pipeline` (src/main.py, lines 19-23)

Python machine floats appear only as loss values and CER scores; they are
modelled as rationals (`ℚ`), with `float("inf")` modelled as the top
element of `WithTop ℚ` and a non-finite division result modelled as
`none : Option ℚ`.  Comparisons are the only float operations the claims
touch, and those agree with the rational order on finite values.
-/

namespace OCRRepo

/-! ### Alphabet Codec: `extract_data` (src/src/data/data.py, 106-145)

In the Python source the vocabulary mixes the seven-character Python
string `"<BLANK>"` (the `blank_token` default argument) with the
single-character strings of the labels.  `Token` embeds that value space:
`Token.blank` is the blank token and `Token.ch c` is the one-character
string of `c`.  The two kinds are distinct values, exactly as in Python. -/

inductive Token where
  | blank
  | ch (c : Char)
deriving DecidableEq, Repr

/-- The list `targets_flat = [blank_token] + sorted(list(set of label chars))`
of data.py line 137, with `set` modelled by `List.dedup` and Python's
`sorted` by an insertion sort over the character order (for the distinct
characters of a `set`, any stable comparison sort yields the same list). -/
def targetsFlat (labels : List (List Char)) : List Token :=
  Token.blank :: ((labels.flatten.dedup.insertionSort (· ≤ ·)).map Token.ch)

/-- The dict `token2ind = {target: ind for ind, target in enumerate(targets_flat)}`
(data.py line 139).  `targetsFlat` has no duplicates (theorem
`targetsFlat_nodup` below), so the dict built from `enumerate` maps each
token to its unique position; a key that is absent raises `KeyError`,
modelled by `none`. -/
def token2ind (labels : List (List Char)) (t : Token) : Option Nat :=
  let tf := targetsFlat labels
  if t ∈ tf then some (List.indexOf t tf) else none

/-- The dict `ind2token = {ind: target for ind, target in enumerate(targets_flat)}`
(data.py line 140): the positions of `enumerate` are distinct, so lookup
is positional indexing; an out-of-range index raises `KeyError`,
modelled by `none`. -/
def ind2token (labels : List (List Char)) (i : Nat) : Option Token :=
  (targetsFlat labels).get? i

/-- One row of `targets_enc = [[token2ind[token] for token in list_token] ...]`
(data.py line 141): encode a label string character by character through
`token2ind`; a missing character raises `KeyError`, modelled by `none`. -/
def encode (labels : List (List Char)) : List Char → Option (List Nat)
  | [] => some []
  | c :: cs =>
    match token2ind labels (Token.ch c), encode labels cs with
    | some i, some e => some (i :: e)
    | _, _ => none

/-- Index-by-index inverse mapping through `ind2token`, the decode
direction of the codec (spec section 4.1). -/
def decodeInds (labels : List (List Char)) : List Nat → Option (List Token)
  | [] => some []
  | i :: is =>
    match ind2token labels i, decodeInds labels is with
    | some t, some ts => some (t :: ts)
    | _, _ => none

/-! ### Sequence Decoder (spec section 4.2)

Modelled from the spec: the module `src/utils.py` that defines
`decode_batch_outputs` is not among the provided source files; only its
callers in src/src/model.py are.  Spec 4.2 fixes the algorithm on an
argmaxed raw index sequence: "scan left to right, keep a symbol if it
differs from the previous raw symbol, then drop all kept symbols equal
to blank". -/

/-- Modelled from the spec: the left-to-right scan after the first
symbol, keeping each symbol that differs from the previous raw symbol
(`prev`). -/
def keepChangedAux (prev : Nat) : List Nat → List Nat
  | [] => []
  | x :: xs => if x = prev then keepChangedAux prev xs else x :: keepChangedAux x xs

/-- Modelled from the spec: the full left-to-right scan; the first raw
symbol is always kept. -/
def keepChanged : List Nat → List Nat
  | [] => []
  | x :: xs => x :: keepChangedAux x xs

/-- Modelled from the spec: greedy CTC collapse of one sample's raw
argmax index sequence — deduplicate consecutive raw repeats, then drop
every blank. -/
def ctcCollapse (blank : Nat) (xs : List Nat) : List Nat :=
  (keepChanged xs).filter (fun x => x ≠ blank)

/-- Modelled from the spec: `decode_batch_outputs` applied after the
per-timestep argmax, one raw index sequence per sample; each sample is
collapsed and mapped back to tokens.  `i2t` is the index-to-token dict,
total on the indices the model emits (the dict covers `[0, num_classes)`
and the argmax ranges over the same interval). -/
def decode_batch_outputs (rawSeqs : List (List Nat)) (i2t : Nat → Token) (blank : Nat) :
    List (List Token) :=
  rawSeqs.map (fun s => (ctcCollapse blank s).map i2t)

/-- Modelled from the spec: `encoding(labels, ind2token)` of src/utils.py
as called in src/src/model.py lines 171 and 290 — map every index of the
flat target sequence back to its token. -/
def encoding (inds : List Nat) (i2t : Nat → Token) : List Token :=
  inds.map i2t

/-- Modelled from the spec (section 4.3): `split_text` of src/utils.py as
called in src/src/model.py lines 172 and 291 — slice the flat decoded
text by the per-sample lengths, keeping a running offset. -/
def split_text : List Token → List Nat → List (List Token)
  | _, [] => []
  | flat, n :: ns => flat.take n :: split_text (flat.drop n) ns

/-! ### Evaluation Scorer: `OCR._evaluations_cer` (src/src/model.py, 354-371)

The method builds a torchmetrics `CharErrorRate` and calls
`cer(labels_true, labels_pred)`.  The torchmetrics signature is
`(preds, target)`: it sums the classic dynamic-programming edit distance
over the zipped pairs and divides by the total number of characters of
`target`.  The source therefore passes the TRUE labels as `preds` and
the PREDICTED labels as `target`, so the denominator is the total
predicted length.  When that total is 0 the tensor division `errors / 0`
is not finite (`inf`, or `nan` when `errors` is also 0), modelled as
`none`. -/

/-- Classic dynamic-programming edit distance (unit costs for
substitution, insertion and deletion), the recurrence computed by
torchmetrics `_edit_distance`. -/
def editDistance : List Char → List Char → Nat
  | [], ys => ys.length
  | x :: xs, [] => (x :: xs).length
  | x :: xs, y :: ys =>
    if x = y then editDistance xs ys
    else 1 + min (editDistance xs ys) (min (editDistance (x :: xs) ys) (editDistance xs (y :: ys)))
termination_by xs ys => xs.length + ys.length
decreasing_by
  all_goals simp [List.length_cons]
  all_goals omega

/-- The torchmetrics `CharErrorRate` computation on a batch:
`errors = sum of edit distances over zip(preds, target)`,
`total = sum of target lengths`, result `errors / total`
(`none` when `total = 0`, where the float division is non-finite). -/
def charErrorRate (preds target : List (List Char)) : Option ℚ :=
  let errors : Nat := ((preds.zip target).map (fun p => editDistance p.1 p.2)).sum
  let total : Nat := (target.map List.length).sum
  if total = 0 then none else some ((errors : ℚ) / (total : ℚ))

/-- `OCR._evaluations_cer(labels_true, labels_pred)` (src/src/model.py
lines 354-371): `CharErrorRate()(labels_true, labels_pred)`, i.e. the
true labels are passed in the `preds` slot and the predicted labels in
the `target` slot. -/
def evaluations_cer (labels_true labels_pred : List (List Char)) : Option ℚ :=
  charErrorRate labels_true labels_pred

/-- The per-pair score of the claim: `_evaluations_cer` on a single
(true, predicted) string pair. -/
def score (t p : List Char) : Option ℚ :=
  evaluations_cer [t] [p]

/-! ### Checkpoint step of `OCR.train` (src/src/model.py, 102-145)

Per epoch the loop increments `self._epoch` (line 107) and then, when
`save_checkpoint and self._eval_loss > eval_loss` (line 141), sets
`self._eval_loss = eval_loss` and saves a checkpoint whose file name is
tagged `Epoch_{self._epoch}_loss_{self._eval_loss:.5f}` with
`training=True` (lines 142-145).  `self._eval_loss` starts as
`float("inf")` (line 56), modelled by `⊤ : WithTop ℚ`. -/

structure TrainState where
  epoch : Nat
  eval_loss : WithTop ℚ
deriving DecidableEq

/-- The tag of a persisted checkpoint: the epoch number and loss value
interpolated into the file name, and the `training` flag passed to
`OCR.save`. -/
structure CheckpointTag where
  epoch : Nat
  loss : ℚ
  training : Bool
deriving DecidableEq

/-- The end-of-epoch bookkeeping of one iteration of `OCR.train`
(src/src/model.py lines 107 and 141-145): increment the epoch counter;
if checkpointing is enabled and the best-seen validation loss is
strictly greater than this epoch's validation loss, update the best-seen
loss and emit a checkpoint tagged with the (incremented) epoch number
and the new loss. -/
def epochEnd (save_checkpoint : Bool) (s : TrainState) (eval_loss : ℚ) :
    TrainState × Option CheckpointTag :=
  let epoch1 := s.epoch + 1
  if save_checkpoint ∧ (eval_loss : WithTop ℚ) < s.eval_loss then
    (⟨epoch1, (eval_loss : WithTop ℚ)⟩, some ⟨epoch1, eval_loss, true⟩)
  else
    (⟨epoch1, s.eval_loss⟩, none)

/-! ### Batch Assembler: `collate_fn` (src/src/data/data.py, 148-162) -/

/-- One dataset item as produced by `CaptchaDataset.__getitem__`
(data.py lines 29-52) when targets are present: the image tensor is
abstract, `seqs` is the tensorized encoded target. -/
structure Sample where
  image : Nat
  img_name : String
  seqs : List Int

/-- The batch dict returned by `collate_fn` (data.py lines 148-162). -/
structure CollatedBatch where
  images : List Nat
  seq : List Int
  seq_len : List Nat
  img_name : List String

/-- `collate_fn` (data.py lines 148-162): per item, append the image and
the image name, append `len(item["seqs"])` to `seq_lens`, and extend the
flat `seqs` list with the item's sequence. -/
def collate_fn (batch : List Sample) : CollatedBatch where
  images := batch.map (fun it => it.image)
  seq := (batch.map (fun it => it.seqs)).flatten
  seq_len := batch.map (fun it => it.seqs.length)
  img_name := batch.map (fun it => it.img_name)

/-! ### `OCR.load` (src/src/model.py, 400-419) and `OCR.save` (376-398)

`save` always writes `model_state_dict` and, when `training=True`, also
`optimizer_state_dic`, `epoch` and `loss`.  A checkpoint file is a dict,
modelled as a record whose optional keys are `Option` fields; reading an
absent key raises `KeyError`, so `load` returns `none` on that path. -/

structure CheckpointFile where
  model_state_dict : Nat
  optimizer_state_dic : Option Nat
  epoch : Option Nat
  loss : Option ℚ
deriving DecidableEq

/-- The mutable fields of `OCR` that `load` touches; parameter and
optimizer states are abstract. -/
structure OCRLoadState where
  optimizer : Nat
  epoch : Nat
  eval_loss : WithTop ℚ
  model : Nat
deriving DecidableEq

/-- `OCR.load` (src/src/model.py lines 400-419), statement by statement:
load the optimizer state if `"optimizer_state_dic" in checkpoint`; set
`self._epoch` if `"epoch" in checkpoint`; then — the guard on line 416
again tests `"epoch" in checkpoint`, not `"loss"` — read
`checkpoint["loss"]` into `self._eval_loss`, which raises `KeyError`
(modelled `none`) when the `loss` key is absent; finally load the model
parameters. -/
def OCR_load (st : OCRLoadState) (ck : CheckpointFile) : Option OCRLoadState :=
  let st1 :=
    match ck.optimizer_state_dic with
    | some o => { st with optimizer := o }
    | none => st
  let st2 :=
    match ck.epoch with
    | some e => { st1 with epoch := e }
    | none => st1
  match ck.epoch with
  | some _ =>
    match ck.loss with
    | some l => some { st2 with eval_loss := (l : WithTop ℚ), model := ck.model_state_dict }
    | none => none
  | none => some { st2 with model := ck.model_state_dict }

/-! ### `create_loaders` (src/src/data/data.py, 55-103) and its call in
`train_pipeline` (src/main.py, 19-23)

The signature is
`create_loaders(paths_to_images, labels, transform, split=False, batch_size=16, test_size=0.2)`:
`split` is the FOURTH positional parameter and `batch_size` defaults to
16.  The body branches on the truthiness of `split` (`if split:`), which
for a Python int means `split != 0`.  `train_pipeline` calls
`create_loaders(image_file_paths, labels_encoded, transform, args.batch_size, test_size=0.2)`,
binding the command-line batch size to `split` and leaving `batch_size`
at its default. -/

structure LoaderCfg where
  batch_size : Nat
  shuffle : Bool
deriving DecidableEq

/-- The loader objects `create_loaders` returns: a (train, test) pair on
the `split` branch (data.py lines 84-98, train shuffled, test not), or a
single prediction loader on the else branch (lines 99-103). -/
inductive Loaders where
  | trainTest (train test : LoaderCfg)
  | single (predictLoader : LoaderCfg)
deriving DecidableEq

/-- `create_loaders` restricted to the arguments the claim is about:
`split` carries the Python int passed positionally (truthy when
nonzero), `batch_size` is the keyword parameter. -/
def create_loaders (split : Int) (batch_size : Nat) : Loaders :=
  if split ≠ 0 then
    Loaders.trainTest ⟨batch_size, true⟩ ⟨batch_size, false⟩
  else
    Loaders.single ⟨batch_size, false⟩

/-- The loader construction of `train_pipeline` (src/main.py lines 19-23):
`args.batch_size` is passed as the fourth positional argument `split`,
and `batch_size` keeps its default value 16. -/
def train_pipeline_loaders (batch_size_arg : Int) : Loaders :=
  create_loaders batch_size_arg 16

/-! ### Attribute surface of `OCR` and the final step of
`predict_pipeline` (src/src/predict.py, 43-51)

Python attribute lookup on an `OCR` instance searches the instance dict
(the attributes assigned in `__init__`, src/src/model.py lines 52-65)
and then the class dict (the methods defined in the class body); a name
found in neither raises `AttributeError`. -/

/-- The methods defined in the body of `class OCR`
(src/src/model.py lines 47-419), in source order. -/
def OCR_class_methods : List String :=
  ["__init__", "train", "_train_epoch", "_validation_epoch", "to",
   "evaluations", "_evaluations_cer", "error_calculation_each_image",
   "save", "load"]

/-- The instance attributes assigned in `OCR.__init__`
(src/src/model.py lines 52-65), in source order. -/
def OCR_instance_attrs : List String :=
  ["model", "_device", "_epoch", "_eval_loss", "_optimizer", "_criterion",
   "_path_save_checkpoint", "blank_token", "blank_ind", "ind2token",
   "token2ind"]

inductive PyAttrError where
  | attributeError (name : String)
deriving DecidableEq

/-- Python attribute lookup on an `OCR` instance. -/
def getattr_OCR (name : String) : Except PyAttrError String :=
  if name ∈ OCR_instance_attrs ∨ name ∈ OCR_class_methods then Except.ok name
  else Except.error (PyAttrError.attributeError name)

/-- The final statement of `predict_pipeline`
(src/src/predict.py line 51): `model.predict(predict_loader, params.output_dir)`
first resolves the attribute `predict` on the `OCR` instance. -/
def predict_pipeline_final_step : Except PyAttrError String :=
  getattr_OCR "predict"

/-! ### `OCR.evaluations` (src/src/model.py, 265-312)

The method loops over the test loader; per batch it rebuilds the true
texts from the flat targets (`encoding` + `split_text`), decodes the
model output with `decode_batch_outputs`, and prints each
`(text, predict)` pair (lines 296-297).  Every code path that would
compute a CER score or return a value is commented out (lines 284,
299-352), so the function body falls off the end and returns `None`.
The model forward pass is abstract: `forward` yields, per batch, the
per-sample raw argmax index sequences of the output tensor. -/

structure EvalBatch where
  images : List Nat
  seq : List Nat
  seq_len : List Nat

/-- `OCR.evaluations` (src/src/model.py lines 265-312): the first
component collects the `(text, predict)` pairs printed on lines 296-297,
the second is the function's return value. -/
def evaluations (forward : EvalBatch → List (List Nat)) (i2t : Nat → Token) (blank : Nat)
    (test_loader : List EvalBatch) : List (List Token × List Token) × Option ℚ :=
  (test_loader.flatMap (fun b =>
      (split_text (encoding b.seq i2t) b.seq_len).zip
        (decode_batch_outputs (forward b) i2t blank)),
   none)

/-! ## Helper lemmas -/

/-- `targets_flat` has no duplicate entries: the sorted character list is
a permutation of a deduplicated list, and the blank token is not a
character token.  This is what makes the Python dicts of data.py lines
139-140 positional lookups. -/
theorem targetsFlat_nodup (labels : List (List Char)) : (targetsFlat labels).Nodup := by
  unfold targetsFlat
  refine List.nodup_cons.mpr ⟨?_, ?_⟩
  · simp
  · exact ((List.perm_insertionSort _ _).nodup_iff.mpr (List.nodup_dedup _)).map
      (fun a b h => by injection h)

/-- Every character occurring in some label reaches the vocabulary. -/
theorem mem_targetsFlat_ch {labels : List (List Char)} {c : Char}
    (h : c ∈ labels.flatten) : Token.ch c ∈ targetsFlat labels := by
  unfold targetsFlat
  exact List.mem_cons_of_mem _
    (List.mem_map_of_mem _ ((List.perm_insertionSort _ _).mem_iff.mpr (List.mem_dedup.mpr h)))

/-- A token of the vocabulary encodes to an index that decodes back to
the same token. -/
theorem token2ind_ind2token {labels : List (List Char)} {t : Token}
    (h : t ∈ targetsFlat labels) :
    ∃ i, token2ind labels t = some i ∧ ind2token labels i = some t := by
  refine ⟨List.indexOf t (targetsFlat labels), ?_, ?_⟩
  · simp [token2ind, h]
  · exact List.indexOf_get? h

/-- The left-to-right keep-if-changed scan agrees with `List.destutter'`
pivoted at the previous raw symbol. -/
theorem destutter_keepChangedAux (xs : List Nat) (prev : Nat) :
    xs.destutter' (· ≠ ·) prev = prev :: keepChangedAux prev xs := by
  induction xs generalizing prev with
  | nil => rfl
  | cons x l ih =>
    by_cases hx : x = prev
    · subst hx
      simp [List.destutter'_cons, keepChangedAux, ih]
    · simp [List.destutter'_cons, keepChangedAux, hx, Ne.symm hx, ih]

/-- The spec's raw scan is exactly consecutive-duplicate removal. -/
theorem keepChanged_eq_destutter (xs : List Nat) :
    keepChanged xs = xs.destutter (· ≠ ·) := by
  cases xs with
  | nil => rfl
  | cons x l => simp [keepChanged, List.destutter_cons', destutter_keepChangedAux]

/-- Scanning a constant sequence from its own value keeps nothing. -/
theorem keepChangedAux_replicate (n prev : Nat) :
    keepChangedAux prev (List.replicate n prev) = [] := by
  induction n with
  | zero => rfl
  | succ n ih => simp [List.replicate_succ, keepChangedAux, ih]

/-! ## Claims -/

/-- Claim C1: the greedy sequence decoder removes every blank index and
collapses consecutive repeats of the same raw symbol — for every raw
index sequence it equals consecutive-duplicate removal
(`List.destutter (· ≠ ·)`) followed by dropping blanks; with blank 0 the
input `[0,3,3,0,5,5,5,0]` decodes to `[3,5]`, and every all-blank input
decodes to the empty sequence. -/
theorem C1_greedy_decoder_collapse :
    (∀ (b : Nat) (xs : List Nat),
      ctcCollapse b xs = (xs.destutter (· ≠ ·)).filter (fun x => x ≠ b))
    ∧ ctcCollapse 0 [0, 3, 3, 0, 5, 5, 5, 0] = [3, 5]
    ∧ (∀ n : Nat, ctcCollapse 0 (List.replicate n 0) = []) := by
  refine ⟨?_, by decide, ?_⟩
  · intro b xs
    rw [ctcCollapse, keepChanged_eq_destutter]
  · intro n
    cases n with
    | zero => rfl
    | succ n =>
      simp [ctcCollapse, List.replicate_succ, keepChanged, keepChangedAux_replicate]

/-- Claim C3: every label string the Alphabet Codec was built from
encodes through `token2ind` without error, and mapping the indices back
through `ind2token` recovers the string (as its list of one-character
tokens). -/
theorem C3_codec_roundtrip (labels : List (List Char)) (s : List Char) (hs : s ∈ labels) :
    ∃ e, encode labels s = some e ∧ decodeInds labels e = some (s.map Token.ch) := by
  have hmem : ∀ c ∈ s, Token.ch c ∈ targetsFlat labels := fun c hc =>
    mem_targetsFlat_ch (List.mem_flatten.mpr ⟨s, hs, hc⟩)
  clear hs
  induction s with
  | nil => exact ⟨[], rfl, rfl⟩
  | cons c cs ih =>
    obtain ⟨i, hi, hti⟩ := token2ind_ind2token (hmem c (by simp))
    obtain ⟨e, he, hde⟩ := ih (fun d hd => hmem d (List.mem_cons_of_mem _ hd))
    refine ⟨i :: e, ?_, ?_⟩
    · simp [encode, hi, he]
    · simp [decodeInds, hti, hde]

/-- Witness for C3 at the corpus `[['a','b']]` and its label `['a','b']`. -/
theorem C3_codec_roundtrip_witness :
    (['a', 'b'] ∈ ([['a', 'b']] : List (List Char)))
    ∧ ∃ e, encode [['a', 'b']] ['a', 'b'] = some e
        ∧ decodeInds [['a', 'b']] e = some (['a', 'b'].map Token.ch) :=
  ⟨by decide, C3_codec_roundtrip [['a', 'b']] ['a', 'b'] (by decide)⟩

/-- Claim C4: for every input label set, the token-to-index mapping built
by `extract_data` assigns the blank token index 0. -/
theorem C4_blank_index_zero (labels : List (List Char)) :
    token2ind labels Token.blank = some 0 := by
  have hmem : Token.blank ∈ targetsFlat labels := List.mem_cons_self _ _
  simp [token2ind, hmem, targetsFlat]

/-- Claim C6: the batch produced by `collate_fn` satisfies the batch
invariant — the per-sample label lengths sum to the length of the flat
label sequence, and there is one length per sample. -/
theorem C6_collate_batch_invariant (batch : List Sample) :
    (collate_fn batch).seq_len.sum = (collate_fn batch).seq.length
    ∧ (collate_fn batch).seq_len.length = batch.length := by
  constructor
  · simp only [collate_fn, List.length_flatten, List.map_map]
    rfl
  · simp [collate_fn]

/-- Claim C2 counterexample: `score("cat","")` is not `1.0` — the source
hands torchmetrics the predicted string as the reference, so the
division is by the predicted length `0` and the result is non-finite
(`none`), not the claimed edit-distance-over-true-length `1.0`. -/
theorem C2_cer_claim_counterexample :
    score ['c', 'a', 't'] [] ≠ some 1 := by decide

/-- Claim C2 as amended: `_evaluations_cer` passes `(true, predicted)`
into the `(preds, target)` slots of torchmetrics `CharErrorRate`, so the
score is the edit distance divided by the length of the PREDICTED
string, with no `max(1, ·)` floor: for every nonempty predicted string
the score is `editDistance true predicted / length predicted`;
`score("cat","cat") = 0` still holds, but `score("cat","")` divides by
zero and is non-finite rather than `1.0`. -/
theorem C2_cer_predicted_denominator :
    (∀ t p : List Char, p ≠ [] →
      score t p = some ((editDistance t p : ℚ) / (p.length : ℚ)))
    ∧ score ['c', 'a', 't'] ['c', 'a', 't'] = some 0
    ∧ score ['c', 'a', 't'] [] = none := by
  refine ⟨?_, ?_, ?_⟩
  · intro t p h
    have hlen : p.length ≠ 0 := by simpa [List.length_eq_zero] using h
    simp [score, evaluations_cer, charErrorRate, hlen]
  · have h3 : editDistance ['c', 'a', 't'] ['c', 'a', 't'] = 0 := by
      simp [editDistance]
    simp [score, evaluations_cer, charErrorRate, h3]
  · simp [score, evaluations_cer, charErrorRate]

/-- Witness for C2 at the pair `("ab", "b")`: one deletion over
predicted length 1. -/
theorem C2_cer_predicted_denominator_witness :
    (['b'] : List Char) ≠ []
    ∧ score ['a', 'b'] ['b']
        = some ((editDistance ['a', 'b'] ['b'] : ℚ) / ((['b'] : List Char).length : ℚ)) :=
  ⟨by decide, C2_cer_predicted_denominator.1 ['a', 'b'] ['b'] (by decide)⟩

/-- Claim C5: with checkpointing enabled (the default used by
`train_pipeline`), the end-of-epoch step persists a checkpoint exactly
when the epoch's validation loss is strictly below the best-seen loss,
and then the checkpoint is tagged with the new epoch number and the loss
value and the best-seen loss is updated to it. -/
theorem C5_checkpoint_on_improvement (s : TrainState) (v : ℚ) :
    ((epochEnd true s v).2 ≠ none ↔ (v : WithTop ℚ) < s.eval_loss)
    ∧ ((v : WithTop ℚ) < s.eval_loss →
        epochEnd true s v = (⟨s.epoch + 1, (v : WithTop ℚ)⟩, some ⟨s.epoch + 1, v, true⟩)) := by
  unfold epochEnd
  by_cases hv : (v : WithTop ℚ) < s.eval_loss
  · simp [hv]
  · simp [hv]

/-- Witness for C5: starting from the initial state (best loss `inf`),
validation loss 1 is an improvement and produces the tagged checkpoint. -/
theorem C5_checkpoint_on_improvement_witness :
    ((1 : ℚ) : WithTop ℚ) < (⊤ : WithTop ℚ)
    ∧ epochEnd true ⟨0, ⊤⟩ 1 = (⟨1, ((1 : ℚ) : WithTop ℚ)⟩, some ⟨1, 1, true⟩) :=
  ⟨by decide, (C5_checkpoint_on_improvement ⟨0, ⊤⟩ 1).2 (by decide)⟩

/-- Claim C7 (code bug): a checkpoint carrying the model parameters and
an `epoch` entry but no `loss` entry makes `OCR.load` raise
`KeyError("loss")` — the guard on src/src/model.py line 416 tests
`"epoch" in checkpoint` where it should test `"loss"` — whereas a
checkpoint with only the model parameters loads fine. -/
theorem C7_load_keyerror_on_missing_loss :
    OCR_load ⟨0, 0, ⊤, 0⟩ ⟨7, none, some 3, none⟩ = none
    ∧ OCR_load ⟨0, 0, ⊤, 0⟩ ⟨7, none, none, none⟩ = some ⟨0, 0, ⊤, 7⟩ :=
  ⟨rfl, rfl⟩

/-- Claim C8 counterexample: invoking the training entry point with
`--batch-size 0` makes `split` falsy, so `create_loaders` takes its else
branch and returns a single prediction loader — no train/test pair with
batch size 16 is constructed at that invocation. -/
theorem C8_zero_batch_size_counterexample :
    train_pipeline_loaders 0 = Loaders.single ⟨16, false⟩
    ∧ train_pipeline_loaders 0 ≠ Loaders.trainTest ⟨16, true⟩ ⟨16, false⟩ :=
  ⟨rfl, by decide⟩

/-- Claim C8 as amended: the `--batch-size` value is bound to the
`split` parameter of `create_loaders` (its fourth positional parameter),
so whenever the value is nonzero (truthy) the train and test loaders are
constructed with the default batch size 16, independent of the value;
a zero value instead selects the no-split branch and yields a single
prediction loader. -/
theorem C8_batch_size_bound_to_split (bs : Int) (h : bs ≠ 0) :
    train_pipeline_loaders bs = Loaders.trainTest ⟨16, true⟩ ⟨16, false⟩ := by
  simp [train_pipeline_loaders, create_loaders, h]

/-- Witness for C8 at the documented default `--batch-size 128`. -/
theorem C8_batch_size_bound_to_split_witness :
    ((128 : Int) ≠ 0)
    ∧ train_pipeline_loaders 128 = Loaders.trainTest ⟨16, true⟩ ⟨16, false⟩ :=
  ⟨by decide, C8_batch_size_bound_to_split 128 (by decide)⟩

/-- Claim C9: the `OCR` class defines no `predict` attribute, so the
final step of `predict_pipeline` fails the attribute lookup and raises
`AttributeError`. -/
theorem C9_predict_attribute_error :
    predict_pipeline_final_step = Except.error (PyAttrError.attributeError "predict")
    ∧ "predict" ∉ OCR_class_methods ∧ "predict" ∉ OCR_instance_attrs := by
  refine ⟨?_, by decide, by decide⟩
  rfl

/-- Claim C10: `OCR.evaluations` returns `None` for every test loader —
its only visible effect is printing the per-sample (true, predicted)
pairs; every code path computing a CER score is commented out. -/
theorem C10_evaluations_returns_none (forward : EvalBatch → List (List Nat))
    (i2t : Nat → Token) (blank : Nat) (test_loader : List EvalBatch) :
    (evaluations forward i2t blank test_loader).2 = none
    ∧ (evaluations forward i2t blank test_loader).1 =
        test_loader.flatMap (fun b =>
          (split_text (encoding b.seq i2t) b.seq_len).zip
            (decode_batch_outputs (forward b) i2t blank)) :=
  ⟨rfl, rfl⟩

end OCRRepo
